import Mathlib

/-!
# Verification of the trademo_entities entity-resolution engine

Shallow embedding of the core of the repository:

* `src/entity_matcher.py` — name cleaning/tokenization, retrieval-token
  preparation, the scorer and `find_best_match`;
* `src/config.py` — `MATCHING_CFG` defaults and the entity collection name;
* `src/jurisdiction_neighborhood.py` — the static jurisdiction table and the
  cached lookups `get_iso_code_by_country` / `get_regional_jurisdictions`;
* `src/tokenized_index/merge_tokens_inverted_index.py` — `process_token_batch`,
  the merge/prune step of the inverted index;
* `src/create_inverted_index.py` — the checkpointed inverted-index builder.

Modelling conventions:

* Python `str` values are Lean `String`s; the string primitives (`upper`,
  `lower`, `strip`, `split`, `"_".split`, `" ".join`) are re-implemented over
  `List Char` so that they compute by kernel reduction.  `Char.toUpper` /
  `Char.toLower` act on ASCII letters; Python's `str.upper`/`str.lower` agree
  with this on all inputs appearing in the repository's data (the jurisdiction
  table and configuration are ASCII except for stopwords whose non-ASCII
  letters are unaffected by case mapping).
* Python's regex class `\w` is modelled as ASCII alphanumeric or underscore,
  `\s` as Python's six whitespace characters.
* Python floats are modelled as exact rationals (`ℚ`).  Every constant of
  `MATCHING_CFG` (0.7, 0.3, 1.0, 0.5, 0.0, 0.55) and every score arising in
  the verified statements is exactly representable, and the float computation
  `1.0*0.7 + 1.0*0.3` evaluates to exactly `1.0` in IEEE double precision, so
  the rational model agrees with the float code on the comparisons performed.
* Python `set`s are `Finset`s: iteration order of a `set` is abstracted away;
  the only uses of set iteration in the sources (building the retrieval token
  list, serialising merged posting lists) are order-insensitive downstream.
* MongoDB collections are snapshot lists of documents; a `find` with a filter
  is `List.filter`; a missing document field is `Option.none`.  MongoDB
  `ObjectId`s are totally ordered immutable ids: the builder models them as
  `Nat`, the merger keeps their canonical hex string.
* The candidate retrieval query of `find_best_match`
  (`{"tokenized_name": {"$all": tokens}} ... limit(max_search_results)`) is an
  abstract parameter `retrieve : Finset String → List Entity`; the claims
  verified here quantify over it.
-/

/-! ## Python string primitives -/

/-- Python's `str.split()` / `str.strip()` whitespace class. -/
def pyIsSpace (c : Char) : Bool :=
  c = ' ' || c = '\t' || c = '\n' || c = '\r' || c = '\x0b' || c = '\x0c'

/-- Python's regex `\w` (ASCII fragment): alphanumeric or underscore. -/
def pyIsWordChar (c : Char) : Bool :=
  c.isAlphanum || c = '_'

/-- Python's `str.upper()` (per-character case mapping). -/
def pyUpper (s : String) : String := String.mk (s.data.map Char.toUpper)

/-- Python's `str.lower()` (per-character case mapping). -/
def pyLower (s : String) : String := String.mk (s.data.map Char.toLower)

/-- Python's `str.strip()`. -/
def pyStrip (s : String) : String :=
  String.mk (((s.data.dropWhile pyIsSpace).reverse.dropWhile pyIsSpace).reverse)

/-- Split a character list at every character satisfying `p`, keeping empty
pieces (the splitting scheme underlying Python's `str.split`). -/
def splitPred (p : Char → Bool) : List Char → List (List Char)
  | [] => [[]]
  | c :: cs =>
    match splitPred p cs with
    | [] => [[]]
    | h :: t => if p c then [] :: h :: t else (c :: h) :: t

/-- Python's argumentless `str.split()`: split on whitespace runs, dropping
empty pieces. -/
def pyWords (s : String) : List String :=
  ((splitPred pyIsSpace s.data).filter (fun w => w ≠ [])).map (fun w => String.mk w)

/-- Python's `str.split(sep)` for a one-character separator, keeping empty
pieces (`"".split("_") == [""]`). -/
def pySplitOnChar (sep : Char) (s : String) : List String :=
  (splitPred (fun c => c = sep) s.data).map (fun w => String.mk w)

/-- Python's `" ".join(words)`. -/
def joinSpaceList : List (List Char) → List Char
  | [] => []
  | [w] => w
  | w :: ws => w ++ ' ' :: joinSpaceList ws

/-- Python's `" ".join` on strings. -/
def joinSpace (ws : List String) : String :=
  String.mk (joinSpaceList (ws.map String.data))

/-! ## Normalizer/Tokenizer — `src/entity_matcher.py` lines 26-37

`clean_name` and `tokenize_name` begin with `isinstance(name, str)` guards;
a Python value passed to them is either a string or some non-string value,
modelled by `PyVal`. -/

/-- A Python value as seen by the tokenizer: a `str` or anything else. -/
inductive PyVal where
  | str (s : String)
  | nonStr
deriving DecidableEq

/-- `EntityMatcher.clean_name`: non-strings map to `""`; otherwise
`re.sub(r"[^\w\s]", " ", name).strip()` — every character that is neither a
word character nor whitespace becomes a single space, then strip. -/
def clean_name : PyVal → String
  | .nonStr => ""
  | .str s =>
    pyStrip (String.mk (s.data.map (fun c => if pyIsWordChar c || pyIsSpace c then c else ' ')))

/-- `EntityMatcher.tokenize_name`: non-strings map to `∅`; otherwise the set
`{word.upper() for word in clean_name(name).split()}`. -/
def tokenize_name : PyVal → Finset String
  | .nonStr => ∅
  | .str s => ((pyWords (clean_name (.str s))).map pyUpper).toFinset

/-! ## Configuration — `src/config.py` -/

/-- `MatchingConfig` from `src/config.py` (floats as exact rationals). -/
structure MatchingConfig where
  min_token_length : Nat
  stopwords : List String
  name_similarity_weight : ℚ
  jurisdiction_weight : ℚ
  exact_jurisdiction_score : ℚ
  neighboring_jurisdiction_score : ℚ
  non_matching_jurisdiction_score : ℚ
  min_score_threshold : ℚ
  max_search_results : Nat
  batch_size : Nat
deriving DecidableEq

/-- `MATCHING_CFG` from `src/config.py`. -/
def MATCHING_CFG : MatchingConfig :=
  { min_token_length := 2
    stopwords :=
      ["VARIABLE", "SOCIEDAD", "CAPITAL", "ANONIMA", "LIMITED", "LIABILITY",
       "COMPANY", "GESELLSCHAFT", "BESCHRÄNKTER", "HAFTUNG", "INTERNATIONAL",
       "INDIA", "CHINA", "ENTERPRISES", "EXPORTS", "IMPORTS", "IMPORT",
       "EXPORT", "TRADING", "CÔNG", "CONG", "VIET", "NAM", "TNHH", "PRIVATE",
       "ENGINEERS", "HANDICRAFTS", "FABRICS"]
    name_similarity_weight := 7/10
    jurisdiction_weight := 3/10
    exact_jurisdiction_score := 1
    neighboring_jurisdiction_score := 1/2
    non_matching_jurisdiction_score := 0
    min_score_threshold := 11/20
    max_search_results := 20
    batch_size := 5000 }

/-- `ENTITY_CFG["collection"]` from `src/config.py`. -/
def ENTITY_COLLECTION : String := "mesur.io_entities_notrademo"

/-! ## Jurisdiction Adjacency Table — `src/jurisdiction_neighborhood.py`

`ShippingLocation` carries `country` and `regional_jurisdictions`; the
free-text `notes` field of the source dataclass is never read by any code and
is omitted.  The table below transcribes the 168 entries of
`JURISDICTION_NEIGHBORHOODS` in source order.  The `JurisdictionCache` maps
are Python dicts built by one insertion per table entry; lookups are modelled
by `pyDictGet`, a left fold in which a later insertion for the same key wins,
exactly as in a Python dict. -/

/-- The `ShippingLocation` dataclass (without the unused `notes` field). -/
structure ShippingLocation where
  country : String
  regional_jurisdictions : List String
deriving DecidableEq

/-- Entries 1-24 of `JURISDICTION_NEIGHBORHOODS`, in source order. -/
def jurisdictionTablePart1 : List (String × ShippingLocation) := [
  ("CN", ShippingLocation.mk "China" ["CN", "HK", "MO", "TW", "KR", "JP", "VN", "MN", "KZ", "KG", "SG", "MY", "TH", "PH"]),
  ("HK", ShippingLocation.mk "Hong Kong" ["HK", "CN", "MO", "TW", "SG", "VN", "MY", "TH", "PH"]),
  ("MO", ShippingLocation.mk "Macau" ["MO", "HK", "CN", "TW", "PH"]),
  ("KR", ShippingLocation.mk "South Korea" ["KR", "JP", "CN", "TW", "HK", "VN", "SG"]),
  ("KP", ShippingLocation.mk "North Korea" ["KP", "CN", "RU", "KR"]),
  ("JP", ShippingLocation.mk "Japan" ["JP", "KR", "CN", "TW", "HK", "VN", "SG", "PH"]),
  ("TW", ShippingLocation.mk "Taiwan" ["TW", "CN", "HK", "JP", "PH", "VN", "SG"]),
  ("MN", ShippingLocation.mk "Mongolia" ["MN", "CN", "RU", "KZ"]),
  ("VN", ShippingLocation.mk "Vietnam" ["VN", "CN", "LA", "KH", "TH", "MY", "SG", "ID", "PH"]),
  ("LA", ShippingLocation.mk "Laos" ["LA", "VN", "KH", "TH", "CN", "MM"]),
  ("KH", ShippingLocation.mk "Cambodia" ["KH", "TH", "VN", "LA", "MY", "SG"]),
  ("TH", ShippingLocation.mk "Thailand" ["TH", "MY", "MM", "LA", "KH", "VN", "SG", "ID"]),
  ("MM", ShippingLocation.mk "Myanmar" ["MM", "TH", "LA", "CN", "BD", "IN"]),
  ("PH", ShippingLocation.mk "Philippines" ["PH", "ID", "MY", "VN", "CN", "TW", "JP", "SG"]),
  ("SG", ShippingLocation.mk "Singapore" ["SG", "MY", "ID", "TH", "VN", "PH", "CN", "IN", "AE"]),
  ("MY", ShippingLocation.mk "Malaysia" ["MY", "SG", "ID", "TH", "BN", "PH", "VN"]),
  ("BN", ShippingLocation.mk "Brunei" ["BN", "MY", "SG", "ID", "PH"]),
  ("ID", ShippingLocation.mk "Indonesia" ["ID", "SG", "MY", "TH", "PH", "TL", "PG"]),
  ("TL", ShippingLocation.mk "East Timor" ["TL", "ID", "AU"]),
  ("IN", ShippingLocation.mk "India" ["IN", "LK", "BD", "NP", "BT", "MM", "AE", "SG", "MY"]),
  ("BD", ShippingLocation.mk "Bangladesh" ["BD", "IN", "MM", "NP", "LK", "TH", "SG"]),
  ("LK", ShippingLocation.mk "Sri Lanka" ["LK", "IN", "SG", "MY", "AE", "MV"]),
  ("MV", ShippingLocation.mk "Maldives" ["MV", "LK", "IN", "AE", "SG"]),
  ("NP", ShippingLocation.mk "Nepal" ["NP", "IN", "CN", "BD", "BT"])
]

/-- Entries 25-48 of `JURISDICTION_NEIGHBORHOODS`, in source order. -/
def jurisdictionTablePart2 : List (String × ShippingLocation) := [
  ("BT", ShippingLocation.mk "Bhutan" ["BT", "IN", "NP", "BD", "CN"]),
  ("PK", ShippingLocation.mk "Pakistan" ["PK", "CN", "IN", "AF", "IR", "AE"]),
  ("AF", ShippingLocation.mk "Afghanistan" ["AF", "PK", "IR", "TM", "UZ", "TJ", "CN"]),
  ("KZ", ShippingLocation.mk "Kazakhstan" ["KZ", "RU", "CN", "KG", "UZ", "TM"]),
  ("UZ", ShippingLocation.mk "Uzbekistan" ["UZ", "KZ", "KG", "TJ", "AF", "TM"]),
  ("KG", ShippingLocation.mk "Kyrgyzstan" ["KG", "KZ", "CN", "TJ", "UZ"]),
  ("TJ", ShippingLocation.mk "Tajikistan" ["TJ", "UZ", "KG", "CN", "AF"]),
  ("TM", ShippingLocation.mk "Turkmenistan" ["TM", "UZ", "KZ", "IR", "AF"]),
  ("AE", ShippingLocation.mk "United Arab Emirates" ["AE", "SA", "OM", "BH", "QA", "KW", "IR", "PK", "IN"]),
  ("SA", ShippingLocation.mk "Saudi Arabia" ["SA", "AE", "BH", "KW", "QA", "OM", "YE", "JO", "IQ"]),
  ("IR", ShippingLocation.mk "Iran" ["IR", "TR", "IQ", "TM", "AF", "PK", "AE"]),
  ("IQ", ShippingLocation.mk "Iraq" ["IQ", "TR", "IR", "SY", "JO", "SA", "KW"]),
  ("JO", ShippingLocation.mk "Jordan" ["JO", "SA", "IQ", "SY", "IL", "PS", "EG"]),
  ("KW", ShippingLocation.mk "Kuwait" ["KW", "SA", "IQ", "IR", "BH", "QA", "AE"]),
  ("BH", ShippingLocation.mk "Bahrain" ["BH", "SA", "QA", "KW", "AE", "OM"]),
  ("QA", ShippingLocation.mk "Qatar" ["QA", "SA", "BH", "AE", "KW", "OM"]),
  ("OM", ShippingLocation.mk "Oman" ["OM", "AE", "SA", "YE", "IR"]),
  ("YE", ShippingLocation.mk "Yemen" ["YE", "SA", "OM", "DJ", "ER"]),
  ("IL", ShippingLocation.mk "Israel" ["IL", "EG", "JO", "LB", "CY", "TR", "GR"]),
  ("PS", ShippingLocation.mk "Palestine" ["PS", "IL", "JO", "EG"]),
  ("LB", ShippingLocation.mk "Lebanon" ["LB", "SY", "IL", "CY", "TR"]),
  ("SY", ShippingLocation.mk "Syria" ["SY", "TR", "IQ", "JO", "LB"]),
  ("EG", ShippingLocation.mk "Egypt" ["EG", "LY", "SD", "IL", "SA", "JO", "GR", "IT"]),
  ("LY", ShippingLocation.mk "Libya" ["LY", "EG", "TN", "DZ", "TD", "SD"])
]

/-- Entries 49-72 of `JURISDICTION_NEIGHBORHOODS`, in source order. -/
def jurisdictionTablePart3 : List (String × ShippingLocation) := [
  ("TN", ShippingLocation.mk "Tunisia" ["TN", "DZ", "LY", "IT", "MT"]),
  ("DZ", ShippingLocation.mk "Algeria" ["DZ", "TN", "LY", "MA", "MR", "ML", "NE"]),
  ("MA", ShippingLocation.mk "Morocco" ["MA", "DZ", "ES", "PT", "MR"]),
  ("SD", ShippingLocation.mk "Sudan" ["SD", "EG", "LY", "TD", "SS", "ET", "ER"]),
  ("ET", ShippingLocation.mk "Ethiopia" ["ET", "SD", "SS", "KE", "SO", "DJ", "ER"]),
  ("DJ", ShippingLocation.mk "Djibouti" ["DJ", "ET", "ER", "SO", "YE"]),
  ("ER", ShippingLocation.mk "Eritrea" ["ER", "ET", "SD", "DJ"]),
  ("SO", ShippingLocation.mk "Somalia" ["SO", "ET", "DJ", "KE"]),
  ("KE", ShippingLocation.mk "Kenya" ["KE", "TZ", "UG", "SS", "ET", "SO"]),
  ("UG", ShippingLocation.mk "Uganda" ["UG", "KE", "TZ", "RW", "SS", "CD"]),
  ("TZ", ShippingLocation.mk "Tanzania" ["TZ", "KE", "UG", "RW", "BI", "CD", "ZM", "MW", "MZ"]),
  ("RW", ShippingLocation.mk "Rwanda" ["RW", "UG", "TZ", "BI", "CD"]),
  ("BI", ShippingLocation.mk "Burundi" ["BI", "RW", "TZ", "CD"]),
  ("NG", ShippingLocation.mk "Nigeria" ["NG", "BJ", "NE", "CM", "GH", "CI"]),
  ("GH", ShippingLocation.mk "Ghana" ["GH", "CI", "BF", "TG", "NG"]),
  ("CI", ShippingLocation.mk "Ivory Coast" ["CI", "GH", "BF", "ML", "GN", "LR"]),
  ("SN", ShippingLocation.mk "Senegal" ["SN", "MR", "ML", "GW", "GN", "GM"]),
  ("ML", ShippingLocation.mk "Mali" ["ML", "DZ", "NE", "BF", "CI", "GN", "SN", "MR"]),
  ("BF", ShippingLocation.mk "Burkina Faso" ["BF", "ML", "NE", "BJ", "TG", "GH", "CI"]),
  ("NE", ShippingLocation.mk "Niger" ["NE", "DZ", "ML", "BF", "NG", "TD", "LY"]),
  ("BJ", ShippingLocation.mk "Benin" ["BJ", "NG", "NE", "BF", "TG"]),
  ("TG", ShippingLocation.mk "Togo" ["TG", "GH", "BF", "BJ"]),
  ("LR", ShippingLocation.mk "Liberia" ["LR", "CI", "GN", "SL"]),
  ("SL", ShippingLocation.mk "Sierra Leone" ["SL", "GN", "LR"])
]

/-- Entries 73-96 of `JURISDICTION_NEIGHBORHOODS`, in source order. -/
def jurisdictionTablePart4 : List (String × ShippingLocation) := [
  ("GN", ShippingLocation.mk "Guinea" ["GN", "SN", "ML", "CI", "LR", "SL", "GW"]),
  ("GW", ShippingLocation.mk "Guinea-Bissau" ["GW", "SN", "GN"]),
  ("GM", ShippingLocation.mk "Gambia" ["GM", "SN"]),
  ("CM", ShippingLocation.mk "Cameroon" ["CM", "NG", "TD", "CF", "CG", "GA", "GQ"]),
  ("TD", ShippingLocation.mk "Chad" ["TD", "LY", "SD", "CF", "CM", "NG", "NE"]),
  ("CF", ShippingLocation.mk "Central African Republic" ["CF", "TD", "SD", "SS", "CD", "CG", "CM"]),
  ("CG", ShippingLocation.mk "Republic of the Congo" ["CG", "CD", "CM", "GA", "AO", "CF"]),
  ("CD", ShippingLocation.mk "Democratic Republic of the Congo" ["CD", "CG", "CF", "SS", "UG", "RW", "BI", "TZ", "ZM", "AO"]),
  ("GA", ShippingLocation.mk "Gabon" ["GA", "CM", "GQ", "CG"]),
  ("GQ", ShippingLocation.mk "Equatorial Guinea" ["GQ", "CM", "GA"]),
  ("ZA", ShippingLocation.mk "South Africa" ["ZA", "NA", "BW", "ZW", "MZ", "SZ", "LS"]),
  ("NA", ShippingLocation.mk "Namibia" ["NA", "ZA", "BW", "ZM", "AO"]),
  ("BW", ShippingLocation.mk "Botswana" ["BW", "ZA", "NA", "ZW"]),
  ("ZW", ShippingLocation.mk "Zimbabwe" ["ZW", "ZA", "BW", "MZ", "ZM"]),
  ("ZM", ShippingLocation.mk "Zambia" ["ZM", "CD", "TZ", "MW", "MZ", "ZW", "BW", "NA", "AO"]),
  ("MZ", ShippingLocation.mk "Mozambique" ["MZ", "TZ", "MW", "ZM", "ZW", "ZA", "SZ"]),
  ("AO", ShippingLocation.mk "Angola" ["AO", "CD", "CG", "ZM", "NA"]),
  ("MW", ShippingLocation.mk "Malawi" ["MW", "TZ", "MZ", "ZM"]),
  ("LS", ShippingLocation.mk "Lesotho" ["LS", "ZA"]),
  ("SZ", ShippingLocation.mk "Eswatini" ["SZ", "ZA", "MZ"]),
  ("US", ShippingLocation.mk "United States" ["US", "CA", "MX", "BM", "BS", "CU", "DO", "JM", "PA"]),
  ("CA", ShippingLocation.mk "Canada" ["CA", "US", "GL", "IS"]),
  ("MX", ShippingLocation.mk "Mexico" ["MX", "US", "GT", "BZ", "CU"]),
  ("GT", ShippingLocation.mk "Guatemala" ["GT", "MX", "BZ", "SV", "HN"])
]

/-- Entries 97-120 of `JURISDICTION_NEIGHBORHOODS`, in source order. -/
def jurisdictionTablePart5 : List (String × ShippingLocation) := [
  ("BZ", ShippingLocation.mk "Belize" ["BZ", "MX", "GT"]),
  ("SV", ShippingLocation.mk "El Salvador" ["SV", "GT", "HN"]),
  ("HN", ShippingLocation.mk "Honduras" ["HN", "GT", "SV", "NI"]),
  ("NI", ShippingLocation.mk "Nicaragua" ["NI", "HN", "CR"]),
  ("CR", ShippingLocation.mk "Costa Rica" ["CR", "NI", "PA"]),
  ("PA", ShippingLocation.mk "Panama" ["PA", "CR", "CO"]),
  ("CU", ShippingLocation.mk "Cuba" ["CU", "US", "MX", "BS", "JM", "HT"]),
  ("JM", ShippingLocation.mk "Jamaica" ["JM", "CU", "HT", "DO", "TC", "KY"]),
  ("HT", ShippingLocation.mk "Haiti" ["HT", "DO", "CU", "JM", "BS"]),
  ("DO", ShippingLocation.mk "Dominican Republic" ["DO", "HT", "PR", "TC"]),
  ("BS", ShippingLocation.mk "Bahamas" ["BS", "US", "CU", "TC"]),
  ("BB", ShippingLocation.mk "Barbados" ["BB", "VC", "LC", "TT", "GD"]),
  ("TT", ShippingLocation.mk "Trinidad and Tobago" ["TT", "VE", "GY", "BB", "GD"]),
  ("CO", ShippingLocation.mk "Colombia" ["CO", "PA", "VE", "BR", "PE", "EC"]),
  ("VE", ShippingLocation.mk "Venezuela" ["VE", "CO", "BR", "GY", "TT"]),
  ("GY", ShippingLocation.mk "Guyana" ["GY", "VE", "BR", "SR", "TT"]),
  ("SR", ShippingLocation.mk "Suriname" ["SR", "GY", "BR", "GF"]),
  ("BR", ShippingLocation.mk "Brazil" ["BR", "UY", "AR", "PY", "BO", "PE", "CO", "VE", "GY", "SR", "GF"]),
  ("EC", ShippingLocation.mk "Ecuador" ["EC", "CO", "PE"]),
  ("PE", ShippingLocation.mk "Peru" ["PE", "EC", "CO", "BR", "BO", "CL"]),
  ("BO", ShippingLocation.mk "Bolivia" ["BO", "PE", "BR", "PY", "AR", "CL"]),
  ("PY", ShippingLocation.mk "Paraguay" ["PY", "BO", "BR", "AR"]),
  ("UY", ShippingLocation.mk "Uruguay" ["UY", "BR", "AR"]),
  ("AR", ShippingLocation.mk "Argentina" ["AR", "CL", "BO", "PY", "BR", "UY"])
]

/-- Entries 121-144 of `JURISDICTION_NEIGHBORHOODS`, in source order. -/
def jurisdictionTablePart6 : List (String × ShippingLocation) := [
  ("CL", ShippingLocation.mk "Chile" ["CL", "PE", "BO", "AR"]),
  ("GB", ShippingLocation.mk "United Kingdom" ["GB", "IE", "FR", "NL", "BE", "DE", "NO"]),
  ("IE", ShippingLocation.mk "Ireland" ["IE", "GB", "FR", "IS"]),
  ("FR", ShippingLocation.mk "France" ["FR", "GB", "BE", "LU", "DE", "CH", "IT", "ES", "MC", "AD"]),
  ("ES", ShippingLocation.mk "Spain" ["ES", "FR", "PT", "AD", "MA", "DZ"]),
  ("PT", ShippingLocation.mk "Portugal" ["PT", "ES", "MA"]),
  ("DE", ShippingLocation.mk "Germany" ["DE", "NL", "BE", "LU", "FR", "CH", "AT", "CZ", "PL", "DK"]),
  ("IT", ShippingLocation.mk "Italy" ["IT", "FR", "CH", "AT", "SI", "HR", "ME", "AL", "GR", "MT", "RO"]),
  ("CH", ShippingLocation.mk "Switzerland" ["CH", "DE", "FR", "IT", "AT", "LI"]),
  ("AT", ShippingLocation.mk "Austria" ["AT", "DE", "CZ", "SK", "HU", "SI", "IT", "CH", "LI"]),
  ("PL", ShippingLocation.mk "Poland" ["PL", "DE", "CZ", "SK", "UA", "BY", "LT"]),
  ("CZ", ShippingLocation.mk "Czech Republic" ["CZ", "DE", "PL", "SK", "AT"]),
  ("SK", ShippingLocation.mk "Slovakia" ["SK", "CZ", "PL", "UA", "HU", "AT"]),
  ("HU", ShippingLocation.mk "Hungary" ["HU", "SK", "UA", "RO", "RS", "HR", "SI", "AT"]),
  ("RO", ShippingLocation.mk "Romania" ["RO", "HU", "UA", "MD", "BG", "RS"]),
  ("BG", ShippingLocation.mk "Bulgaria" ["BG", "RO", "RS", "MK", "GR", "TR"]),
  ("RS", ShippingLocation.mk "Serbia" ["RS", "HU", "RO", "BG", "MK", "XK", "ME", "BA", "HR"]),
  ("HR", ShippingLocation.mk "Croatia" ["HR", "SI", "HU", "RS", "BA", "ME", "IT"]),
  ("SI", ShippingLocation.mk "Slovenia" ["SI", "IT", "AT", "HU", "HR"]),
  ("BA", ShippingLocation.mk "Bosnia and Herzegovina" ["BA", "HR", "RS", "ME"]),
  ("ME", ShippingLocation.mk "Montenegro" ["ME", "HR", "BA", "RS", "XK", "AL"]),
  ("XK", ShippingLocation.mk "Kosovo" ["XK", "RS", "ME", "AL", "MK"]),
  ("AL", ShippingLocation.mk "Albania" ["AL", "ME", "XK", "MK", "GR"]),
  ("MK", ShippingLocation.mk "North Macedonia" ["MK", "BG", "GR", "AL", "XK", "RS"])
]

/-- Entries 145-168 of `JURISDICTION_NEIGHBORHOODS`, in source order. -/
def jurisdictionTablePart7 : List (String × ShippingLocation) := [
  ("GR", ShippingLocation.mk "Greece" ["GR", "AL", "MK", "BG", "TR", "IT", "CY"]),
  ("CY", ShippingLocation.mk "Cyprus" ["CY", "GR", "TR", "IL", "LB", "EG"]),
  ("TR", ShippingLocation.mk "Turkey" ["TR", "GR", "BG", "GE", "AM", "IR", "IQ", "SY"]),
  ("AM", ShippingLocation.mk "Armenia" ["AM", "GE", "TR", "IR", "AZ"]),
  ("GE", ShippingLocation.mk "Georgia" ["GE", "RU", "TR", "AM", "AZ"]),
  ("AZ", ShippingLocation.mk "Azerbaijan" ["AZ", "GE", "RU", "IR", "AM"]),
  ("BY", ShippingLocation.mk "Belarus" ["BY", "RU", "UA", "PL", "LT", "LV"]),
  ("UA", ShippingLocation.mk "Ukraine" ["UA", "BY", "RU", "MD", "RO", "HU", "SK", "PL"]),
  ("MD", ShippingLocation.mk "Moldova" ["MD", "RO", "UA"]),
  ("LT", ShippingLocation.mk "Lithuania" ["LT", "LV", "BY", "PL", "RU"]),
  ("LV", ShippingLocation.mk "Latvia" ["LV", "EE", "LT", "BY", "RU"]),
  ("EE", ShippingLocation.mk "Estonia" ["EE", "LV", "RU", "FI"]),
  ("FI", ShippingLocation.mk "Finland" ["FI", "SE", "NO", "RU", "EE"]),
  ("SE", ShippingLocation.mk "Sweden" ["SE", "NO", "FI", "DK"]),
  ("NO", ShippingLocation.mk "Norway" ["NO", "SE", "FI", "RU", "DK", "IS"]),
  ("DK", ShippingLocation.mk "Denmark" ["DK", "DE", "SE", "NO"]),
  ("IS", ShippingLocation.mk "Iceland" ["IS", "NO", "GB", "IE"]),
  ("AU", ShippingLocation.mk "Australia" ["AU", "ID", "PG", "NZ", "NC", "SB", "TL"]),
  ("NZ", ShippingLocation.mk "New Zealand" ["NZ", "AU", "FJ", "NC"]),
  ("PG", ShippingLocation.mk "Papua New Guinea" ["PG", "ID", "SB", "AU"]),
  ("FJ", ShippingLocation.mk "Fiji" ["FJ", "VU", "NC", "SB", "NZ"]),
  ("SB", ShippingLocation.mk "Solomon Islands" ["SB", "PG", "VU", "NC"]),
  ("VU", ShippingLocation.mk "Vanuatu" ["VU", "NC", "SB", "FJ"]),
  ("NC", ShippingLocation.mk "New Caledonia" ["NC", "VU", "SB", "AU", "NZ"])
]

/-- `JURISDICTION_NEIGHBORHOODS` from `src/jurisdiction_neighborhood.py`: all
168 entries in source order (transcribed in parts to keep elaboration of the
list literal cheap). -/
def JURISDICTION_NEIGHBORHOODS : List (String × ShippingLocation) :=
  jurisdictionTablePart1 ++ jurisdictionTablePart2 ++ jurisdictionTablePart3 ++ jurisdictionTablePart4 ++ jurisdictionTablePart5 ++ jurisdictionTablePart6 ++ jurisdictionTablePart7

/-- Python dict lookup with default, for a dict built by inserting the pairs
of `m` in order (later insertions overwrite earlier ones). -/
def pyDictGet {α : Type} (m : List (String × α)) (key : String) (dflt : α) : α :=
  (m.foldl (fun acc p => if p.1 = key then some p.2 else acc) none).getD dflt

/-- `JurisdictionCache.lowercase_country_to_iso`: one insertion
`location.country.lower() ↦ iso_code` per table entry. -/
def lowercase_country_to_iso (tbl : List (String × ShippingLocation)) : List (String × String) :=
  tbl.map (fun p => (pyLower p.2.country, p.1))

/-- `JurisdictionCache.iso_to_jurisdictions`: one insertion
`iso_code ↦ location.regional_jurisdictions` per table entry. -/
def iso_to_jurisdictions (tbl : List (String × ShippingLocation)) : List (String × List String) :=
  tbl.map (fun p => (p.1, p.2.regional_jurisdictions))

/-- `get_iso_code_by_country`: case-insensitive display-name lookup, empty
string when the name is unknown. -/
def get_iso_code_by_country (tbl : List (String × ShippingLocation)) (country : String) : String :=
  pyDictGet (lowercase_country_to_iso tbl) (pyLower country) ""

/-- `get_regional_jurisdictions`: neighbor codes of an ISO code, `[]` when the
code is unknown. -/
def get_regional_jurisdictions (tbl : List (String × ShippingLocation)) (code : String) : List String :=
  pyDictGet (iso_to_jurisdictions tbl) code []

/-! ## Matcher — `src/entity_matcher.py` lines 39-141 -/

/-- A document of the reference entity collection as read by
`find_best_match`: every field access goes through `.get(...)` with a
default, so each field is optional. -/
structure Entity where
  tokenized_name : Option (List String)
  jurisdiction : Option String
  name : Option String
  id : Option String
deriving DecidableEq

/-- The `MatchResult` dataclass. -/
structure MatchResult where
  source_collection : String
  name : String
  jurisdiction : String
  score : ℚ
  company_number : String
deriving DecidableEq

/-- `EntityMatcher.prepare_tokens_for_search`: drop tokens shorter than
`min_token_length` and stopwords.  The source builds a Python list by
iterating the token set; the set-iteration order is abstracted away (the
result feeds an order-insensitive `$all` query), so the result is kept as a
`Finset`.  The `if not tokens: return []` early return coincides with
filtering the empty set. -/
def prepare_tokens_for_search (cfg : MatchingConfig) (tokens : Finset String) : Finset String :=
  tokens.filter (fun word => cfg.min_token_length ≤ word.length ∧ word ∉ cfg.stopwords)

/-- The jurisdiction-score selection inside
`EntityMatcher._calculate_match_score` (lines 128-133). -/
def jurisdictionScore (cfg : MatchingConfig) (shipper_code entity_jurisdiction : String)
    (regional_jurisdictions : List String) : ℚ :=
  if pyUpper entity_jurisdiction = pyUpper shipper_code then
    cfg.exact_jurisdiction_score
  else if pyUpper entity_jurisdiction ∈ regional_jurisdictions.map pyUpper then
    cfg.neighboring_jurisdiction_score
  else
    cfg.non_matching_jurisdiction_score

/-- `EntityMatcher._calculate_match_score` (the Python leading underscore is
dropped from the Lean name). -/
def calculate_match_score (cfg : MatchingConfig) (trademo_tokens entity_tokens : Finset String)
    (shipper_code entity_jurisdiction : String) (regional_jurisdictions : List String) : ℚ :=
  if trademo_tokens = ∅ ∨ entity_tokens = ∅ then 0
  else
    let inter : Nat := (trademo_tokens ∩ entity_tokens).card
    let uni : Nat := (trademo_tokens ∪ entity_tokens).card
    let name_score : ℚ := if 0 < uni then (inter : ℚ) / (uni : ℚ) else 0
    name_score * cfg.name_similarity_weight
      + jurisdictionScore cfg shipper_code entity_jurisdiction regional_jurisdictions
          * cfg.jurisdiction_weight

/-- `entity.get("jurisdiction", "").upper().split("_")[0]`
(`find_best_match` lines 85-86). -/
def mainJurisdictionOf (e : Entity) : String :=
  (pySplitOnChar '_' (pyUpper (e.jurisdiction.getD ""))).headD ""

/-- The score `find_best_match` computes for one retrieved candidate
(lines 84-94): entity tokens are `set(entity.get("tokenized_name", []))`. -/
def candidateScore (cfg : MatchingConfig) (trademo_tokens : Finset String)
    (shipper_code : String) (regional_jurisdictions : List String) (e : Entity) : ℚ :=
  calculate_match_score cfg trademo_tokens (e.tokenized_name.getD []).toFinset
    shipper_code (mainJurisdictionOf e) regional_jurisdictions

/-- The `MatchResult` built at `find_best_match` lines 98-104. -/
def mkMatchResult (e : Entity) (score : ℚ) : MatchResult :=
  { source_collection := ENTITY_COLLECTION
    name := e.name.getD ""
    jurisdiction := e.jurisdiction.getD ""
    score := score
    company_number := e.id.getD "" }

/-- The candidate loop of `find_best_match` (lines 79-110): keep the first
strictly greater score as current best, return immediately on a score of
`1.0`. -/
def matchLoop (cfg : MatchingConfig) (trademo_tokens : Finset String) (shipper_code : String)
    (regional_jurisdictions : List String) :
    List Entity → ℚ → Option MatchResult → Option MatchResult
  | [], _, best_match => best_match
  | e :: rest, best_score, best_match =>
    let score := candidateScore cfg trademo_tokens shipper_code regional_jurisdictions e
    if best_score < score then
      if score = 1 then some (mkMatchResult e score)
      else matchLoop cfg trademo_tokens shipper_code regional_jurisdictions rest score
        (some (mkMatchResult e score))
    else matchLoop cfg trademo_tokens shipper_code regional_jurisdictions rest best_score best_match

/-- `" ".join(shipper_name.split()[:-1])` (line 58). -/
def dropLastWordName (s : String) : String :=
  joinSpace (pyWords s).dropLast

/-- The country normalisation inlined at `find_best_match` lines 72-76 (the
spec's `normalizeCountry`): two-letter inputs pass through uppercased,
anything else goes through `get_iso_code_by_country`. -/
def normalizeCountry (tbl : List (String × ShippingLocation)) (shipping_country : String) : String :=
  if shipping_country.length = 2 then pyUpper shipping_country
  else get_iso_code_by_country tbl shipping_country

/-- `EntityMatcher.find_best_match`.  `retrieve` abstracts the MongoDB query
`find({"tokenized_name": {"$all": tokens}}).limit(max_search_results)`,
returning candidates in retrieval order; `tbl` is the jurisdiction table. -/
def find_best_match (cfg : MatchingConfig) (tbl : List (String × ShippingLocation))
    (retrieve : Finset String → List Entity) (shipper_name shipping_country : String) :
    Option MatchResult :=
  let name_without_country := dropLastWordName shipper_name
  let shipper_tokens := tokenize_name (.str name_without_country)
  let tokens := prepare_tokens_for_search cfg shipper_tokens
  if tokens = ∅ then none
  else
    let shipper_code := normalizeCountry tbl shipping_country
    let regional_jurisdictions := get_regional_jurisdictions tbl shipper_code
    matchLoop cfg shipper_tokens shipper_code regional_jurisdictions (retrieve tokens)
      cfg.min_score_threshold none

/-- The perfect-match condition on a candidate: its stored token set equals
the query's scoring token set and its main jurisdiction matches the query's
code (under the default configuration this is exactly `score == 1.0`). -/
def perfectFor (trademo_tokens : Finset String) (shipper_code : String) (e : Entity) : Prop :=
  (e.tokenized_name.getD []).toFinset = trademo_tokens
    ∧ pyUpper (mainJurisdictionOf e) = pyUpper shipper_code

/-! ## Inverted-index Merger — `src/tokenized_index/merge_tokens_inverted_index.py`

`process_token_batch` receives a batch of distinct-token documents (their
`_id`s are the token strings) and the filtered chunk collection; documents of
the chunk collection are modelled in collection order, a `find` with a filter
is `List.filter`.  An entity id on the wire is a BSON `ObjectId`, an
`{"$oid": hex}` dict or a hex string; all three coerce to the `ObjectId` with
that hex, modelled by `canonicalId`.  A merged document's freshly generated
`_id := ObjectId()` is omitted; its posting is a Python set serialised to a
list (`list(all_entity_ids)`), kept as a `Finset` since the set-iteration
order is abstracted. -/

/-- The three wire shapes of an entity id handled at lines 115-124. -/
inductive WireId where
  | oid (hex : String)
  | dictOid (hex : String)
  | strId (hex : String)
deriving DecidableEq

/-- The canonical `ObjectId` each wire shape coerces to (lines 115-124). -/
def canonicalId : WireId → String
  | .oid h => h
  | .dictOid h => h
  | .strId h => h

/-- A chunk record of the filtered index (`entity_token_index_filtered`). -/
structure SourceDoc where
  token : String
  entity_ids : List WireId
deriving DecidableEq

/-- A document of the merged index (`entity_token_index_final`); `chunk` is
always `0`, the generated `_id` is omitted. -/
structure MergedDoc where
  token : String
  chunk : Nat
  entity_ids : Finset String
deriving DecidableEq

/-- All chunk records of one token, in collection order
(`token_groups[token]`). -/
def tokenChunks (source : List SourceDoc) (t : String) : List SourceDoc :=
  source.filter (fun d => d.token = t)

/-- `sum(len(doc["entity_ids"]) for doc in docs)` — the pre-merge entity
count the 200-ceiling is compared against (line 102). -/
def preMergeCount (docs : List SourceDoc) : Nat :=
  (docs.map (fun d => d.entity_ids.length)).sum

/-- The deduplicated union of canonicalised entity ids over a token's chunk
records (`all_entity_ids`, lines 113-124). -/
def mergedPosting (docs : List SourceDoc) : Finset String :=
  ((docs.map (fun d => d.entity_ids.map canonicalId)).flatten).toFinset

/-- The per-token body of the loop at lines 94-136: `none` when the token has
no chunk records or its pre-merge count exceeds 200; otherwise the merged
document. -/
def mergeToken (source : List SourceDoc) (t : String) : Option MergedDoc :=
  let docs := tokenChunks source t
  if docs = [] then none
  else if 200 < preMergeCount docs then none
  else some { token := t, chunk := 0, entity_ids := mergedPosting docs }

/-- `process_token_batch`: the merged documents in token-batch order and the
total number of entity references among them. -/
def process_token_batch (tokens : List String) (source : List SourceDoc) :
    List MergedDoc × Nat :=
  let merged := tokens.filterMap (mergeToken source)
  (merged, (merged.map (fun d => d.entity_ids.card)).sum)

/-! ## Inverted-index Builder — `src/create_inverted_index.py`

Reference entities are modelled with `Nat` ids (MongoDB `ObjectId`s: unique,
immutable, totally ordered); the snapshot list stands for the collection in
ascending `_id` order, which is the order the per-batch
`find(...).sort("_id").limit(batch_size)` returns, so the batch fetch is
`filter` + `take` (the sortedness of the snapshot is a hypothesis of the
theorems).  The `while True` loop is modelled with explicit fuel
(`buildSteps`); `entities.length + 1` rounds are always enough for a sorted
snapshot, and `buildSteps` with a smaller fuel `N` is exactly the run
interrupted after `N` committed batches, checkpoint intact.  Per-batch
retries around a fixed store are invisible in a functional model. -/

/-- A reference entity as projected by the builder
(`{"_id": 1, "tokenized_name": 1}`). -/
structure RefEntity where
  id : Nat
  tokenized_name : Option (List String)
deriving DecidableEq

/-- A chunk record written to `entity_token_index` (lines 89-95). -/
structure IndexDoc where
  token : String
  chunk : Nat
  entity_ids : List Nat
deriving DecidableEq

/-- One `inverted_index[token].append(entity_id)` on the batch-local
`defaultdict(list)` (insertion order of first occurrence preserved, as in a
Python dict). -/
def addPosting (inv : List (String × List Nat)) (t : String) (id : Nat) :
    List (String × List Nat) :=
  if inv.any (fun p => p.1 = t) then
    inv.map (fun p => if p.1 = t then (p.1, p.2 ++ [id]) else p)
  else inv ++ [(t, [id])]

/-- The batch-local inverted index built at lines 70-80. -/
def batchInvertedIndex (batch : List RefEntity) : List (String × List Nat) :=
  batch.foldl
    (fun inv doc => (doc.tokenized_name.getD []).foldl (fun inv t => addPosting inv t doc.id) inv)
    []

/-- Structural worker for `chunksOf`: the first argument is fuel, always at
least the list length at every call, so the middle case is never reached. -/
def chunksOfAux (n : Nat) : Nat → List α → List (List α)
  | _, [] => []
  | 0, _ :: _ => []
  | fuel + 1, x :: xs => (x :: xs.take (n - 1)) :: chunksOfAux n fuel (xs.drop (n - 1))

/-- `entity_ids[i : i + 1000]` slices for `i = 0, 1000, 2000, ...`, modelling
the chunking loop at lines 86-95 (`n = 1000` there). -/
def chunksOf (n : Nat) (l : List α) : List (List α) :=
  chunksOfAux n l.length l

/-- The `bulk_insert` list built from one batch (lines 82-95): for each token
in insertion order, its posting split into chunks of 1000 with chunk numbers
`i // 1000`. -/
def bulkInsertDocs (batch : List RefEntity) : List IndexDoc :=
  ((batchInvertedIndex batch).map
    (fun p => (chunksOf 1000 p.2).enum.map
      (fun q => { token := p.1, chunk := q.1, entity_ids := q.2 : IndexDoc }))).flatten

/-- The resume filter `{"_id": {"$gt": last_id}} if last_id else {}`
(line 43). -/
def gtLast (last : Option Nat) (id : Nat) : Bool :=
  match last with
  | none => true
  | some c => c < id

/-- One batch fetch (lines 49-55) against the ascending-id snapshot. -/
def nextBatch (B : Nat) (entities : List RefEntity) (last : Option Nat) : List RefEntity :=
  ((entities.filter (fun e => gtLast last e.id)).take B)

/-- Up to `n` committed batches of the main loop starting from checkpoint
`last`: the index documents inserted and the final checkpoint value.  The
loop stops early when a batch comes back empty (line 63). -/
def buildSteps (B : Nat) (entities : List RefEntity) : Nat → Option Nat → List IndexDoc × Option Nat
  | 0, last => ([], last)
  | n + 1, last =>
    let batch := nextBatch B entities last
    match batch.getLast? with
    | none => ([], last)
    | some e =>
      let rest := buildSteps B entities n (some e.id)
      (bulkInsertDocs batch ++ rest.1, rest.2)

/-- The full (uninterrupted) main loop from checkpoint `last`:
`entities.length + 1` rounds of fuel always reach the empty batch on a sorted
snapshot. -/
def buildRun (B : Nat) (entities : List RefEntity) (last : Option Nat) : List IndexDoc :=
  (buildSteps B entities (entities.length + 1) last).1

/-- Startup (lines 21-35): with no checkpoint file the index collection is
dropped; with a checkpoint file holding value `c` the existing index is kept.
`none` is an absent file, `some c` a file holding checkpoint `c`. -/
def initialIndex : Option Nat → List IndexDoc → List IndexDoc
  | none, _ => []
  | some _, existing => existing

/-- Startup checkpoint value: absent file means scan from the beginning. -/
def initialLast : Option Nat → Option Nat
  | none => none
  | some c => some c

/-- A whole builder run: startup against the checkpoint file and the existing
index contents, then the main loop to completion. -/
def builderMain (B : Nat) (entities : List RefEntity) (checkpointFile : Option Nat)
    (existing : List IndexDoc) : List IndexDoc :=
  initialIndex checkpointFile existing ++ buildRun B entities (initialLast checkpointFile)

/-! ## Helper lemmas -/

/-- A Python-dict lookup misses when no inserted pair carries the key. -/
theorem pyDictGet_foldl_none {α : Type} (key : String) :
    ∀ (m : List (String × α)) (acc : Option α), (∀ p ∈ m, p.1 ≠ key) →
      m.foldl (fun acc p => if p.1 = key then some p.2 else acc) acc = acc := by
  intro m
  induction m with
  | nil => intro acc _; rfl
  | cons p t ih =>
    intro acc h
    have hp : p.1 ≠ key := h p (List.mem_cons_self p t)
    simp only [List.foldl_cons, if_neg hp]
    exact ih acc (fun q hq => h q (List.mem_cons_of_mem p hq))

/-- `pyDictGet` returns the default when the key was never inserted. -/
theorem pyDictGet_not_mem {α : Type} (m : List (String × α)) (key : String) (dflt : α)
    (h : ∀ p ∈ m, p.1 ≠ key) : pyDictGet m key dflt = dflt := by
  unfold pyDictGet
  rw [pyDictGet_foldl_none key m none h]
  rfl

/-- `normalizeCountry` yields the empty string when the input is not
two-letter and its lowercased form matches no table entry's display name. -/
theorem normalizeCountry_unresolved (tbl : List (String × ShippingLocation)) (s : String)
    (hlen : s.length ≠ 2)
    (hmiss : ∀ p ∈ tbl, pyLower p.2.country ≠ pyLower s) :
    normalizeCountry tbl s = "" := by
  unfold normalizeCountry
  rw [if_neg hlen]
  unfold get_iso_code_by_country
  apply pyDictGet_not_mem
  intro p hp
  unfold lowercase_country_to_iso at hp
  obtain ⟨q, hq, rfl⟩ := List.mem_map.mp hp
  exact hmiss q hq

/-- Permutation-invariance of `List.toFinset`. -/
theorem perm_toFinset {α : Type} [DecidableEq α] {l₁ l₂ : List α} (h : l₁.Perm l₂) :
    l₁.toFinset = l₂.toFinset := by
  ext a
  simp only [List.mem_toFinset]
  exact h.mem_iff

/-! ## Claim theorems -/

/-- Claim C8: `tokenize("Acme, Inc.")` is exactly `{"ACME","INC"}`,
`tokenize("")` is the empty set, and a non-string input (every non-string
Python value is `PyVal.nonStr` in the model) also yields the empty set; the
tokenizer is a total function, so it never raises. -/
theorem c8_tokenize_examples_and_nonstring :
    tokenize_name (.str "Acme, Inc.") = {"ACME", "INC"}
      ∧ tokenize_name (.str "") = ∅
      ∧ tokenize_name .nonStr = ∅ := by
  refine ⟨by decide, by decide, rfl⟩

/-- Claim C10: a shipper name of at most one whitespace-delimited word makes
`find_best_match` return `none` for every configuration, jurisdiction table,
country and retrieval function (in particular for every collection content):
dropping the trailing word leaves the empty name, whose token set is empty,
so the retrieval-token check fails before the store is consulted — the
conclusion does not depend on `retrieve`. -/
theorem c10_single_word_returns_none (cfg : MatchingConfig)
    (tbl : List (String × ShippingLocation)) (retrieve : Finset String → List Entity)
    (shipper_name shipping_country : String)
    (h : (pyWords shipper_name).length ≤ 1) :
    find_best_match cfg tbl retrieve shipper_name shipping_country = none := by
  have hdrop : (pyWords shipper_name).dropLast = [] := by
    match hw : pyWords shipper_name with
    | [] => rfl
    | [a] => rfl
    | a :: b :: l => rw [hw] at h; simp at h
  have htok : tokenize_name (.str (dropLastWordName shipper_name)) = ∅ := by
    rw [dropLastWordName, hdrop]
    decide
  have hprep : prepare_tokens_for_search cfg (∅ : Finset String) = ∅ := by
    simp [prepare_tokens_for_search]
  simp [find_best_match, htok, hprep]

/-- Witness for C10 at the one-word name `"ACME"`. -/
theorem c10_witness :
    find_best_match MATCHING_CFG JURISDICTION_NEIGHBORHOODS
      (fun _ => [⟨some ["ACME"], some "US", some "Acme", some "7"⟩]) "ACME" "US" = none :=
  c10_single_word_returns_none MATCHING_CFG JURISDICTION_NEIGHBORHOODS
    (fun _ => [⟨some ["ACME"], some "US", some "Acme", some "7"⟩]) "ACME" "US" (by decide)

/-- Counterexample to claim C7 as stated: an input that is neither two
letters long nor a known display name resolves to the empty string, not to a
sentinel value `"unknown"`. -/
theorem c7_counterexample_no_unknown_sentinel :
    normalizeCountry JURISDICTION_NEIGHBORHOODS "Atlantis" = ""
      ∧ ("" : String) ≠ "unknown" := by
  refine ⟨by decide, by decide⟩

/-- Claim C7 (amended): `normalizeCountry` maps any two-letter input to its
uppercase form unchanged; any other input is resolved by case-insensitive
lookup of the display name (`"United States"` maps to `"US"`); an input that
resolves neither way yields the empty string. -/
theorem c7_normalize_country (s : String) :
    (s.length = 2 → normalizeCountry JURISDICTION_NEIGHBORHOODS s = pyUpper s)
      ∧ (s.length ≠ 2 →
          (∀ p ∈ JURISDICTION_NEIGHBORHOODS, pyLower p.2.country ≠ pyLower s) →
          normalizeCountry JURISDICTION_NEIGHBORHOODS s = "")
      ∧ normalizeCountry JURISDICTION_NEIGHBORHOODS "United States" = "US"
      ∧ normalizeCountry JURISDICTION_NEIGHBORHOODS "US" = "US" := by
  refine ⟨?_, ?_, by decide, by decide⟩
  · intro h
    unfold normalizeCountry
    rw [if_pos h]
  · intro hlen hmiss
    exact normalizeCountry_unresolved JURISDICTION_NEIGHBORHOODS s hlen hmiss

set_option maxRecDepth 8192 in
/-- Witness for C7 at the unresolved input `"Atlantis"`. -/
theorem c7_witness : normalizeCountry JURISDICTION_NEIGHBORHOODS "Atlantis" = "" :=
  (c7_normalize_country "Atlantis").2.1 (by decide) (by decide)

/-- Claim C9: when the query country resolves to no jurisdiction code (it is
neither two letters long nor a known display name, so the code in use is
`""`), a candidate whose `jurisdiction` field is missing or empty receives
the exact-match jurisdiction score: its main jurisdiction is also `""` and
the two empty strings compare equal in the first branch of the scorer. -/
theorem c9_empty_jurisdictions_score_exact (cfg : MatchingConfig)
    (tbl : List (String × ShippingLocation)) (country : String) (e : Entity)
    (regional_jurisdictions : List String)
    (hlen : country.length ≠ 2)
    (hmiss : ∀ p ∈ tbl, pyLower p.2.country ≠ pyLower country)
    (hjur : e.jurisdiction = none ∨ e.jurisdiction = some "") :
    jurisdictionScore cfg (normalizeCountry tbl country) (mainJurisdictionOf e)
      regional_jurisdictions = cfg.exact_jurisdiction_score := by
  have hcode : normalizeCountry tbl country = "" :=
    normalizeCountry_unresolved tbl country hlen hmiss
  have hmain : mainJurisdictionOf e = "" := by
    rcases hjur with h | h <;> rw [mainJurisdictionOf, h] <;> decide
  rw [hcode, hmain]
  unfold jurisdictionScore
  rw [if_pos rfl]

set_option maxRecDepth 8192 in
/-- Witness for C9: country `"Atlantis"` with a candidate lacking the
jurisdiction field. -/
theorem c9_witness :
    jurisdictionScore MATCHING_CFG
      (normalizeCountry JURISDICTION_NEIGHBORHOODS "Atlantis")
      (mainJurisdictionOf ⟨some ["X"], none, none, none⟩) []
      = MATCHING_CFG.exact_jurisdiction_score :=
  c9_empty_jurisdictions_score_exact MATCHING_CFG JURISDICTION_NEIGHBORHOODS "Atlantis"
    ⟨some ["X"], none, none, none⟩ [] (by decide) (by decide) (Or.inl rfl)

/-- Under the default configuration the jurisdiction score is one of
`1`, `1/2`, `0`, hence at most `1`. -/
theorem jurisdictionScore_default_le_one (c j : String) (reg : List String) :
    jurisdictionScore MATCHING_CFG c j reg ≤ 1 := by
  unfold jurisdictionScore
  split_ifs <;> norm_num [MATCHING_CFG]

/-- Under the default configuration every candidate score is at most `1`. -/
theorem candidateScore_le_one (T : Finset String) (c : String) (reg : List String)
    (e : Entity) : candidateScore MATCHING_CFG T c reg e ≤ 1 := by
  simp only [candidateScore, calculate_match_score]
  by_cases h0 : T = ∅ ∨ (e.tokenized_name.getD []).toFinset = ∅
  · rw [if_pos h0]; norm_num
  · rw [if_neg h0]
    have hjs := jurisdictionScore_default_le_one c (mainJurisdictionOf e) reg
    have hns : (if 0 < (T ∪ (e.tokenized_name.getD []).toFinset).card then
        (((T ∩ (e.tokenized_name.getD []).toFinset).card : ℚ)
          / ((T ∪ (e.tokenized_name.getD []).toFinset).card : ℚ)) else 0) ≤ 1 := by
      split_ifs with h
      · rw [div_le_one (by exact_mod_cast h)]
        exact_mod_cast Finset.card_le_card Finset.inter_subset_union
      · norm_num
    have hw1 : MATCHING_CFG.name_similarity_weight = 7/10 := rfl
    have hw2 : MATCHING_CFG.jurisdiction_weight = 3/10 := rfl
    rw [hw1, hw2]
    linarith

/-- A perfect candidate (claim C1's amended condition) scores exactly `1`
under the default configuration. -/
theorem candidateScore_of_perfect (T : Finset String) (c : String) (reg : List String)
    (e : Entity) (hT : T ≠ ∅) (hp : perfectFor T c e) :
    candidateScore MATCHING_CFG T c reg e = 1 := by
  obtain ⟨htok, hjur⟩ := hp
  simp only [candidateScore, calculate_match_score, htok]
  rw [if_neg (by simp [hT])]
  rw [Finset.inter_self, Finset.union_self]
  have hpos : 0 < T.card := Finset.card_pos.mpr (Finset.nonempty_iff_ne_empty.mpr hT)
  rw [if_pos hpos]
  rw [div_self (by exact_mod_cast hpos.ne' : (T.card : ℚ) ≠ 0)]
  have hjs : jurisdictionScore MATCHING_CFG c (mainJurisdictionOf e) reg = 1 := by
    unfold jurisdictionScore
    rw [if_pos hjur]
    rfl
  rw [hjs]
  norm_num [MATCHING_CFG]

/-- Conversely, under the default configuration a candidate scoring exactly
`1` is perfect: the weights force name similarity `1` (equal token sets) and
the exact-jurisdiction branch. -/
theorem perfect_of_candidateScore_eq_one (T : Finset String) (c : String) (reg : List String)
    (e : Entity) (h : candidateScore MATCHING_CFG T c reg e = 1) :
    perfectFor T c e := by
  simp only [candidateScore, calculate_match_score] at h
  by_cases h0 : T = ∅ ∨ (e.tokenized_name.getD []).toFinset = ∅
  · rw [if_pos h0] at h; norm_num at h
  · rw [if_neg h0] at h
    have hT : T ≠ ∅ := fun hc => h0 (Or.inl hc)
    have hpos : 0 < (T ∪ (e.tokenized_name.getD []).toFinset).card :=
      Finset.card_pos.mpr
        (Finset.Nonempty.mono Finset.subset_union_left
          (Finset.nonempty_iff_ne_empty.mpr hT))
    rw [if_pos hpos] at h
    have hposq : (0 : ℚ) < ((T ∪ (e.tokenized_name.getD []).toFinset).card : ℚ) := by
      exact_mod_cast hpos
    have hns_le : (((T ∩ (e.tokenized_name.getD []).toFinset).card : ℚ)
        / ((T ∪ (e.tokenized_name.getD []).toFinset).card : ℚ)) ≤ 1 := by
      rw [div_le_one hposq]
      exact_mod_cast Finset.card_le_card Finset.inter_subset_union
    have hw1 : MATCHING_CFG.name_similarity_weight = 7/10 := rfl
    have hw2 : MATCHING_CFG.jurisdiction_weight = 3/10 := rfl
    rw [hw1, hw2] at h
    unfold jurisdictionScore at h
    split_ifs at h with hj1 hj2
    · have he : MATCHING_CFG.exact_jurisdiction_score = 1 := rfl
      rw [he] at h
      have hns1 : (((T ∩ (e.tokenized_name.getD []).toFinset).card : ℚ)
          / ((T ∪ (e.tokenized_name.getD []).toFinset).card : ℚ)) = 1 := by linarith
      rw [div_eq_one_iff_eq hposq.ne'] at hns1
      have hcard : (T ∩ (e.tokenized_name.getD []).toFinset).card
          = (T ∪ (e.tokenized_name.getD []).toFinset).card := by exact_mod_cast hns1
      have heq : T ∩ (e.tokenized_name.getD []).toFinset
          = T ∪ (e.tokenized_name.getD []).toFinset :=
        Finset.eq_of_subset_of_card_le Finset.inter_subset_union (le_of_eq hcard.symm)
      refine ⟨?_, hj1⟩
      apply Finset.Subset.antisymm
      · intro a ha
        have : a ∈ T ∪ (e.tokenized_name.getD []).toFinset := Finset.mem_union_right _ ha
        rw [← heq] at this
        exact (Finset.mem_inter.mp this).1
      · intro a ha
        have : a ∈ T ∪ (e.tokenized_name.getD []).toFinset := Finset.mem_union_left _ ha
        rw [← heq] at this
        exact (Finset.mem_inter.mp this).2
    · have he : MATCHING_CFG.neighboring_jurisdiction_score = 1/2 := rfl
      rw [he] at h
      linarith
    · have he : MATCHING_CFG.non_matching_jurisdiction_score = 0 := rfl
      rw [he] at h
      linarith

/-- The candidate loop returns the first perfect candidate with score `1`
immediately, for any suffix after it: earlier candidates all score strictly
below `1`, so the running best stays below `1` until the perfect candidate
triggers the `score == 1.0` early return. -/
theorem matchLoop_first_perfect (T : Finset String) (c : String) (reg : List String) :
    ∀ (pre : List Entity) (e : Entity) (post : List Entity) (bs : ℚ)
      (best : Option MatchResult),
      (∀ x ∈ pre, candidateScore MATCHING_CFG T c reg x < 1) →
      candidateScore MATCHING_CFG T c reg e = 1 → bs < 1 →
      matchLoop MATCHING_CFG T c reg (pre ++ e :: post) bs best
        = some (mkMatchResult e 1) := by
  intro pre
  induction pre with
  | nil =>
    intro e post bs best _ hs hbs
    simp only [List.nil_append, matchLoop]
    rw [hs, if_pos hbs, if_pos rfl]
  | cons x pre ih =>
    intro e post bs best hpre hs hbs
    have hx : candidateScore MATCHING_CFG T c reg x < 1 := hpre x (List.mem_cons_self x pre)
    simp only [List.cons_append, matchLoop]
    by_cases h1 : bs < candidateScore MATCHING_CFG T c reg x
    · rw [if_pos h1, if_neg (ne_of_lt hx)]
      exact ih e post _ _ (fun y hy => hpre y (List.mem_cons_of_mem x hy)) hs hx
    · rw [if_neg h1]
      exact ih e post bs best (fun y hy => hpre y (List.mem_cons_of_mem x hy)) hs hbs

/-- `find_best_match` under the default configuration: if the retrieved
candidate list splits as `pre ++ e :: post` with `e` perfect and nothing in
`pre` perfect, the result is `e` with score `1` — for every `post`, so no
candidate after `e` influences the result. -/
theorem find_best_match_first_perfect (tbl : List (String × ShippingLocation))
    (retrieve : Finset String → List Entity) (shipper_name shipping_country : String)
    (pre post : List Entity) (e : Entity)
    (hprep : prepare_tokens_for_search MATCHING_CFG
        (tokenize_name (.str (dropLastWordName shipper_name))) ≠ ∅)
    (hret : retrieve (prepare_tokens_for_search MATCHING_CFG
        (tokenize_name (.str (dropLastWordName shipper_name)))) = pre ++ e :: post)
    (hperf : perfectFor (tokenize_name (.str (dropLastWordName shipper_name)))
        (normalizeCountry tbl shipping_country) e)
    (hfirst : ∀ x ∈ pre,
        ¬ perfectFor (tokenize_name (.str (dropLastWordName shipper_name)))
          (normalizeCountry tbl shipping_country) x) :
    find_best_match MATCHING_CFG tbl retrieve shipper_name shipping_country
      = some (mkMatchResult e 1) := by
  have hT : tokenize_name (.str (dropLastWordName shipper_name)) ≠ ∅ := by
    intro hc
    apply hprep
    rw [hc]
    simp [prepare_tokens_for_search]
  simp only [find_best_match]
  rw [if_neg hprep, hret]
  apply matchLoop_first_perfect
  · intro x hx
    exact lt_of_le_of_ne (candidateScore_le_one _ _ _ x)
      (fun hc => hfirst x hx (perfect_of_candidateScore_eq_one _ _ _ x hc))
  · exact candidateScore_of_perfect _ _ _ e hT hperf
  · norm_num [MATCHING_CFG]

/-- Loop invariant for C3: if the running best score is at least `thr` and
the current best (when present) scores strictly above `thr`, then any result
the candidate loop returns scores strictly above `thr`. -/
theorem matchLoop_result_gt (cfg : MatchingConfig) (trademo_tokens : Finset String)
    (shipper_code : String) (regional_jurisdictions : List String) (thr : ℚ) :
    ∀ (l : List Entity) (bs : ℚ) (best : Option MatchResult) (r : MatchResult),
      thr ≤ bs → (∀ b, best = some b → thr < b.score) →
      matchLoop cfg trademo_tokens shipper_code regional_jurisdictions l bs best = some r →
      thr < r.score := by
  intro l
  induction l with
  | nil =>
    intro bs best r _ hbest h
    exact hbest r h
  | cons e rest ih =>
    intro bs best r hbs hbest h
    simp only [matchLoop] at h
    by_cases h1 : bs < candidateScore cfg trademo_tokens shipper_code regional_jurisdictions e
    · rw [if_pos h1] at h
      by_cases h2 : candidateScore cfg trademo_tokens shipper_code regional_jurisdictions e = 1
      · rw [if_pos h2] at h
        have hr : mkMatchResult e
            (candidateScore cfg trademo_tokens shipper_code regional_jurisdictions e) = r :=
          Option.some.inj h
        rw [← hr]
        exact lt_of_le_of_lt hbs h1
      · rw [if_neg h2] at h
        refine ih _ _ r (le_of_lt (lt_of_le_of_lt hbs h1)) ?_ h
        intro b hb
        rw [← Option.some.inj hb]
        exact lt_of_le_of_lt hbs h1
    · rw [if_neg h1] at h
      exact ih bs best r hbs hbest h

/-- Claim C3: whenever `find_best_match` returns a result, its score is
strictly greater than the configured minimum threshold; otherwise it returns
`none` — the loop starts with the threshold as the best score and only ever
replaces it by strictly greater scores. -/
theorem c3_returned_score_above_threshold (cfg : MatchingConfig)
    (tbl : List (String × ShippingLocation)) (retrieve : Finset String → List Entity)
    (shipper_name shipping_country : String) (r : MatchResult)
    (h : find_best_match cfg tbl retrieve shipper_name shipping_country = some r) :
    cfg.min_score_threshold < r.score := by
  unfold find_best_match at h
  by_cases ht :
      prepare_tokens_for_search cfg (tokenize_name (.str (dropLastWordName shipper_name))) = ∅
  · rw [if_pos ht] at h
    exact absurd h (by simp)
  · rw [if_neg ht] at h
    exact matchLoop_result_gt cfg _ _ _ cfg.min_score_threshold _ cfg.min_score_threshold
      none r le_rfl (by intro b hb; cases hb) h

/-- Witness for C3: a concrete query whose returned match scores `1`,
strictly above the default threshold `11/20`. -/
theorem c3_witness :
    MATCHING_CFG.min_score_threshold
      < (mkMatchResult (⟨some ["WIDGETS", "ACME"], some "de", some "Acme Widgets", some "42"⟩ : Entity) 1).score :=
  c3_returned_score_above_threshold MATCHING_CFG []
    (fun _ => [⟨some ["WIDGETS", "ACME"], some "de", some "Acme Widgets", some "42"⟩])
    "ACME WIDGETS GMBH" "DE"
    (mkMatchResult ⟨some ["WIDGETS", "ACME"], some "de", some "Acme Widgets", some "42"⟩ 1)
    (find_best_match_first_perfect [] _ "ACME WIDGETS GMBH" "DE" [] []
      ⟨some ["WIDGETS", "ACME"], some "de", some "Acme Widgets", some "42"⟩
      (by decide) rfl ⟨by decide, by decide⟩
      (fun x hx => absurd hx (List.not_mem_nil x)))

/-- Evaluation helper: `candidateScore` at a candidate with known token set,
main jurisdiction, intersection/union cardinalities and jurisdiction score. -/
theorem candidateScore_eval (T E : Finset String) (c j : String) (reg : List String)
    (e : Entity) (hE : (e.tokenized_name.getD []).toFinset = E)
    (hj : mainJurisdictionOf e = j) (hne : ¬(T = ∅ ∨ E = ∅))
    (i u : Nat) (hi : (T ∩ E).card = i) (hu : (T ∪ E).card = u) (hupos : 0 < u)
    (js : ℚ) (hjs : jurisdictionScore MATCHING_CFG c j reg = js) :
    candidateScore MATCHING_CFG T c reg e
      = (i : ℚ) / (u : ℚ) * (7/10) + js * (3/10) := by
  simp only [candidateScore, calculate_match_score, hE, hj]
  rw [if_neg hne, hi, hu, if_pos hupos, hjs]
  rfl

/-- Evaluation helper: `find_best_match` with exactly one retrieved candidate
of known score strictly between the threshold and `1`-exclusive. -/
theorem find_best_match_single (cfg : MatchingConfig) (tbl : List (String × ShippingLocation))
    (retrieve : Finset String → List Entity) (shipper_name shipping_country : String)
    (e : Entity) (s : ℚ)
    (hprep : prepare_tokens_for_search cfg
        (tokenize_name (.str (dropLastWordName shipper_name))) ≠ ∅)
    (hret : retrieve (prepare_tokens_for_search cfg
        (tokenize_name (.str (dropLastWordName shipper_name)))) = [e])
    (hs : candidateScore cfg (tokenize_name (.str (dropLastWordName shipper_name)))
        (normalizeCountry tbl shipping_country)
        (get_regional_jurisdictions tbl (normalizeCountry tbl shipping_country)) e = s)
    (h1 : cfg.min_score_threshold < s) (h2 : s ≠ 1) :
    find_best_match cfg tbl retrieve shipper_name shipping_country
      = some (mkMatchResult e s) := by
  simp only [find_best_match]
  rw [if_neg hprep, hret]
  simp only [matchLoop]
  rw [hs, if_pos h1, if_neg h2]

/-- Counterexample to claim C1 as stated: the query `"ACME WIDGETS US"` from
country `"US"` retrieves a candidate whose stored token set equals the
tokenization of the *full* input name and whose jurisdiction equals the
query's code, yet `find_best_match` returns it with score `23/30`, not `1.0`:
the scorer tokenizes the input name with its trailing word dropped, so the
full-name condition does not produce the perfect score. -/
theorem c1_counterexample_full_name :
    (((⟨some ["ACME", "WIDGETS", "US"], some "us", some "Acme Widgets", some "9"⟩ : Entity).tokenized_name.getD
        []).toFinset = tokenize_name (.str "ACME WIDGETS US")
      ∧ pyUpper (mainJurisdictionOf
          ⟨some ["ACME", "WIDGETS", "US"], some "us", some "Acme Widgets", some "9"⟩)
        = pyUpper (normalizeCountry [] "US"))
    ∧ find_best_match MATCHING_CFG []
        (fun _ => [⟨some ["ACME", "WIDGETS", "US"], some "us", some "Acme Widgets", some "9"⟩])
        "ACME WIDGETS US" "US"
      = some (mkMatchResult
          ⟨some ["ACME", "WIDGETS", "US"], some "us", some "Acme Widgets", some "9"⟩ (23/30))
    ∧ (23/30 : ℚ) ≠ 1 := by
  refine ⟨⟨by decide, by decide⟩, ?_, by norm_num⟩
  apply find_best_match_single MATCHING_CFG []
    (fun _ => [⟨some ["ACME", "WIDGETS", "US"], some "us", some "Acme Widgets", some "9"⟩])
    "ACME WIDGETS US" "US"
    ⟨some ["ACME", "WIDGETS", "US"], some "us", some "Acme Widgets", some "9"⟩ (23/30)
    (by decide) rfl ?_ (by norm_num [MATCHING_CFG]) (by norm_num)
  rw [candidateScore_eval (tokenize_name (.str (dropLastWordName "ACME WIDGETS US")))
    {"ACME", "WIDGETS", "US"} (normalizeCountry [] "US") "US"
    (get_regional_jurisdictions [] (normalizeCountry [] "US"))
    ⟨some ["ACME", "WIDGETS", "US"], some "us", some "Acme Widgets", some "9"⟩
    (by decide) (by decide) (by decide) 2 3 (by decide) (by decide) (by decide)
    1 (by unfold jurisdictionScore; rw [if_pos (by decide)]; rfl)]
  norm_num

/-- Claim C1 (amended): for every query whose candidate list contains an
entity whose stored token set equals the tokenization of the query name
*after dropping its trailing word* and whose main jurisdiction equals the
query's normalized code, with no earlier such candidate, `find_best_match`
(default configuration) returns that entity with score `1.0`; the conclusion
holds for every `post`, so no candidate later in iteration order is ever
taken into account. -/
theorem c1_perfect_match_short_circuits (tbl : List (String × ShippingLocation))
    (retrieve : Finset String → List Entity) (shipper_name shipping_country : String)
    (pre post : List Entity) (e : Entity)
    (hprep : prepare_tokens_for_search MATCHING_CFG
        (tokenize_name (.str (dropLastWordName shipper_name))) ≠ ∅)
    (hret : retrieve (prepare_tokens_for_search MATCHING_CFG
        (tokenize_name (.str (dropLastWordName shipper_name)))) = pre ++ e :: post)
    (hperf : perfectFor (tokenize_name (.str (dropLastWordName shipper_name)))
        (normalizeCountry tbl shipping_country) e)
    (hfirst : ∀ x ∈ pre,
        ¬ perfectFor (tokenize_name (.str (dropLastWordName shipper_name)))
          (normalizeCountry tbl shipping_country) x) :
    find_best_match MATCHING_CFG tbl retrieve shipper_name shipping_country
      = some (mkMatchResult e 1) :=
  find_best_match_first_perfect tbl retrieve shipper_name shipping_country pre post e
    hprep hret hperf hfirst

/-- Witness for C1: a perfect candidate followed by another candidate that is
never examined. -/
theorem c1_witness :
    find_best_match MATCHING_CFG JURISDICTION_NEIGHBORHOODS
      (fun _ => [⟨some ["DYNAMICS", "GLOBEX"], some "fr", some "Globex Dynamics", some "11"⟩,
                 ⟨none, none, none, none⟩])
      "GLOBEX DYNAMICS SARL" "FR"
      = some (mkMatchResult
          ⟨some ["DYNAMICS", "GLOBEX"], some "fr", some "Globex Dynamics", some "11"⟩ 1) :=
  c1_perfect_match_short_circuits JURISDICTION_NEIGHBORHOODS
    (fun _ => [⟨some ["DYNAMICS", "GLOBEX"], some "fr", some "Globex Dynamics", some "11"⟩,
               ⟨none, none, none, none⟩])
    "GLOBEX DYNAMICS SARL" "FR" [] [⟨none, none, none, none⟩]
    ⟨some ["DYNAMICS", "GLOBEX"], some "fr", some "Globex Dynamics", some "11"⟩
    (by decide) rfl ⟨by decide, by decide⟩
    (fun x hx => absurd hx (List.not_mem_nil x))

/-- The candidate loop never consults `min_token_length` or `stopwords`:
changing exactly those fields leaves every candidate's score, and hence the
whole loop, unchanged. -/
theorem matchLoop_ignores_filtering (cfg : MatchingConfig) (m : Nat) (sw : List String)
    (trademo_tokens : Finset String) (shipper_code : String)
    (regional_jurisdictions : List String) :
    ∀ (l : List Entity) (bs : ℚ) (best : Option MatchResult),
      matchLoop { cfg with min_token_length := m, stopwords := sw }
          trademo_tokens shipper_code regional_jurisdictions l bs best
        = matchLoop cfg trademo_tokens shipper_code regional_jurisdictions l bs best := by
  intro l
  have hsc : ∀ e : Entity,
      candidateScore { cfg with min_token_length := m, stopwords := sw }
          trademo_tokens shipper_code regional_jurisdictions e
        = candidateScore cfg trademo_tokens shipper_code regional_jurisdictions e :=
    fun _ => rfl
  induction l with
  | nil => intro bs best; rfl
  | cons e rest ih =>
    intro bs best
    simp only [matchLoop, hsc, ih]

/-- Claim C2: the similarity score of every retrieved candidate is computed
over the full, unfiltered token set of the (pre-processed) input name —
`min_token_length` and stopword filtering influence only the retrieval
query.  Formally: changing exactly those two fields changes nothing but the
prepared query, so if the store answers both prepared queries with the same
candidate list (and the two queries are equally empty), the final result is
identical, scores included. -/
theorem c2_filtering_affects_only_retrieval (cfg : MatchingConfig) (m : Nat)
    (sw : List String) (tbl : List (String × ShippingLocation))
    (retrieve retrieve' : Finset String → List Entity)
    (shipper_name shipping_country : String)
    (hret : retrieve' (prepare_tokens_for_search { cfg with min_token_length := m, stopwords := sw }
        (tokenize_name (.str (dropLastWordName shipper_name))))
      = retrieve (prepare_tokens_for_search cfg
        (tokenize_name (.str (dropLastWordName shipper_name)))))
    (hempty : prepare_tokens_for_search { cfg with min_token_length := m, stopwords := sw }
        (tokenize_name (.str (dropLastWordName shipper_name))) = ∅
      ↔ prepare_tokens_for_search cfg
        (tokenize_name (.str (dropLastWordName shipper_name))) = ∅) :
    find_best_match { cfg with min_token_length := m, stopwords := sw } tbl retrieve'
        shipper_name shipping_country
      = find_best_match cfg tbl retrieve shipper_name shipping_country := by
  simp only [find_best_match]
  by_cases h : prepare_tokens_for_search cfg
      (tokenize_name (.str (dropLastWordName shipper_name))) = ∅
  · rw [if_pos h, if_pos (hempty.mpr h)]
  · rw [if_neg h, if_neg (fun hc => h (hempty.mp hc)), hret]
    exact matchLoop_ignores_filtering cfg m sw _ _ _ _ _ _

/-- Witness for C2: raising the minimum token length to `5` and adding a
stopword changes the prepared query but not the outcome when the store
answers both queries identically. -/
theorem c2_witness :
    find_best_match { MATCHING_CFG with min_token_length := 5, stopwords := ["ACME"] } []
        (fun _ => []) "ALPHA BETA GAMMA X" "US"
      = find_best_match MATCHING_CFG [] (fun _ => []) "ALPHA BETA GAMMA X" "US" :=
  c2_filtering_affects_only_retrieval MATCHING_CFG 5 ["ACME"] []
    (fun _ => []) (fun _ => []) "ALPHA BETA GAMMA X" "US" rfl (by decide)

/-- A merged document produced for token `t` carries token `t`. -/
theorem mergeToken_token (source : List SourceDoc) (t : String) (d : MergedDoc)
    (h : mergeToken source t = some d) : d.token = t := by
  unfold mergeToken at h
  by_cases h1 : tokenChunks source t = []
  · rw [if_pos h1] at h
    cases h
  · rw [if_neg h1] at h
    by_cases h2 : 200 < preMergeCount (tokenChunks source t)
    · rw [if_pos h2] at h
      cases h
    · rw [if_neg h2] at h
      rw [← Option.some.inj h]

/-- `mergeToken` evaluated on a surviving token. -/
theorem mergeToken_survives (source : List SourceDoc) (t : String)
    (h1 : tokenChunks source t ≠ []) (h2 : preMergeCount (tokenChunks source t) ≤ 200) :
    mergeToken source t
      = some { token := t, chunk := 0, entity_ids := mergedPosting (tokenChunks source t) } := by
  unfold mergeToken
  rw [if_neg h1, if_neg (not_lt.mpr h2)]

/-- `mergeToken` evaluated on a dropped token. -/
theorem mergeToken_dropped (source : List SourceDoc) (t : String)
    (h : tokenChunks source t = [] ∨ 200 < preMergeCount (tokenChunks source t)) :
    mergeToken source t = none := by
  unfold mergeToken
  rcases h with h | h
  · rw [if_pos h]
  · by_cases h1 : tokenChunks source t = []
    · rw [if_pos h1]
    · rw [if_neg h1, if_pos h]

/-- Tokens absent from the batch contribute nothing with token `t`. -/
theorem filterMap_mergeToken_not_mem (source : List SourceDoc) (t : String) :
    ∀ (tokens : List String), t ∉ tokens →
      ((tokens.filterMap (mergeToken source)).filter (fun d => d.token = t)) = [] := by
  intro tokens
  induction tokens with
  | nil => intro _; rfl
  | cons tok rest ih =>
    intro h
    have htok : tok ≠ t := fun hc => h (hc ▸ List.mem_cons_self tok rest)
    have hrest : t ∉ rest := fun hc => h (List.mem_cons_of_mem tok hc)
    cases hm : mergeToken source tok with
    | none => simp only [List.filterMap_cons, hm]; exact ih hrest
    | some d =>
      simp only [List.filterMap_cons, hm]
      rw [List.filter_cons_of_neg]
      · exact ih hrest
      · simp [mergeToken_token source tok d hm, htok]

set_option maxRecDepth 65536 in
/-- Counterexample to claim C4 as stated: a token whose two chunk records
repeat the same 101 entity ids has a deduplicated union of size `101 ≤ 200`,
yet its pre-dedup count is `202 > 200`, so `process_token_batch` drops it —
presence in the final index is governed by the pre-dedup count, not by the
size of the deduplicated union. -/
theorem c4_counterexample_dedup_ceiling :
    (mergedPosting (tokenChunks
        [⟨"T", (List.range 101).map (fun n => WireId.oid (toString n))⟩,
         ⟨"T", (List.range 101).map (fun n => WireId.oid (toString n))⟩] "T")).card = 101
      ∧ 101 ≤ 200
      ∧ (process_token_batch ["T"]
          [⟨"T", (List.range 101).map (fun n => WireId.oid (toString n))⟩,
           ⟨"T", (List.range 101).map (fun n => WireId.oid (toString n))⟩]).1 = [] := by
  refine ⟨by decide, by decide, by decide⟩

/-- Claim C4 (amended): in a token batch without repeated tokens, a token
having at least one chunk record is dropped from the merged output exactly
when the total pre-deduplication count of entity-id occurrences across its
chunk records exceeds 200; a token with at least one record and pre-dedup
count at most 200 appears exactly once, with the deduplicated union as its
posting (a token with no chunk records is also absent). -/
theorem c4_pruning_by_premerge_count (tokens : List String) (source : List SourceDoc)
    (hnd : tokens.Nodup) (t : String) (ht : t ∈ tokens) :
    ((tokenChunks source t = [] ∨ 200 < preMergeCount (tokenChunks source t)) →
      ((process_token_batch tokens source).1.filter (fun d => d.token = t)) = [])
    ∧ (tokenChunks source t ≠ [] → preMergeCount (tokenChunks source t) ≤ 200 →
      ((process_token_batch tokens source).1.filter (fun d => d.token = t))
        = [{ token := t, chunk := 0, entity_ids := mergedPosting (tokenChunks source t) }]) := by
  induction tokens with
  | nil => cases ht
  | cons tok rest ih =>
    rcases List.mem_cons.mp ht with rfl | hmem
    · have hrest : t ∉ rest := (List.nodup_cons.mp hnd).1
      constructor
      · intro hdrop
        simp only [process_token_batch, List.filterMap_cons, mergeToken_dropped source t hdrop]
        exact filterMap_mergeToken_not_mem source t rest hrest
      · intro h1 h2
        simp only [process_token_batch, List.filterMap_cons, mergeToken_survives source t h1 h2]
        rw [List.filter_cons_of_pos (by simp)]
        rw [filterMap_mergeToken_not_mem source t rest hrest]
    · have hne : tok ≠ t := fun hc => (List.nodup_cons.mp hnd).1 (hc ▸ hmem)
      have ihr := ih (List.nodup_cons.mp hnd).2 hmem
      constructor
      · intro hdrop
        simp only [process_token_batch, List.filterMap_cons]
        cases hm : mergeToken source tok with
        | none => exact ihr.1 hdrop
        | some d =>
          rw [List.filter_cons_of_neg (by simp [mergeToken_token source tok d hm, hne])]
          exact ihr.1 hdrop
      · intro h1 h2
        simp only [process_token_batch, List.filterMap_cons]
        cases hm : mergeToken source tok with
        | none => exact ihr.2 h1 h2
        | some d =>
          rw [List.filter_cons_of_neg (by simp [mergeToken_token source tok d hm, hne])]
          exact ihr.2 h1 h2

/-- Witness for C4: token `"A"` with two chunk records totalling 3 id
occurrences survives with the deduplicated posting `{"x","y"}`. -/
theorem c4_witness :
    ((process_token_batch ["A", "B"]
        [⟨"A", [WireId.oid "x"]⟩, ⟨"A", [WireId.strId "x", WireId.oid "y"]⟩]).1.filter
      (fun d => d.token = "A"))
      = [{ token := "A", chunk := 0,
           entity_ids := mergedPosting (tokenChunks
             [⟨"A", [WireId.oid "x"]⟩, ⟨"A", [WireId.strId "x", WireId.oid "y"]⟩] "A") }] :=
  (c4_pruning_by_premerge_count ["A", "B"]
    [⟨"A", [WireId.oid "x"]⟩, ⟨"A", [WireId.strId "x", WireId.oid "y"]⟩]
    (by decide) "A" (by decide)).2 (by decide) (by decide)

/-- The pre-merge count of a token is the length of the concatenation of its
chunk records' id lists. -/
theorem preMergeCount_eq_length_flatten (docs : List SourceDoc) :
    preMergeCount docs = ((docs.map (fun d => d.entity_ids)).flatten).length := by
  unfold preMergeCount
  rw [List.length_flatten, List.map_map]
  rfl

/-- The merged posting is the canonical image of the concatenation of the
chunk records' id lists, deduplicated. -/
theorem mergedPosting_eq_flatten (docs : List SourceDoc) :
    mergedPosting docs
      = (((docs.map (fun d => d.entity_ids)).flatten).map canonicalId).toFinset := by
  unfold mergedPosting
  rw [List.map_flatten, List.map_map]
  rfl

/-- Claim C5: for any token, the merge step depends on its chunk records only
through the multiset of wire ids they carry: two chunkings whose
concatenations are permutations of each other (and are equally empty) produce
the same merge outcome, and a surviving token's posting is the deduplicated
canonical union of all ids across its chunks — with the three wire shapes of
the same hex id collapsing to one canonical id. -/
theorem c5_chunk_roundtrip (source source' : List SourceDoc) (t : String)
    (hperm : (((tokenChunks source t).map (fun d => d.entity_ids)).flatten).Perm
        (((tokenChunks source' t).map (fun d => d.entity_ids)).flatten))
    (hempty : tokenChunks source t = [] ↔ tokenChunks source' t = []) :
    mergeToken source t = mergeToken source' t
    ∧ (∀ d, mergeToken source t = some d →
        d.entity_ids
          = ((((tokenChunks source t).map (fun d => d.entity_ids)).flatten).map
              canonicalId).toFinset)
    ∧ (∀ h : String, canonicalId (.oid h) = canonicalId (.dictOid h)
        ∧ canonicalId (.oid h) = canonicalId (.strId h)) := by
  have hcount : preMergeCount (tokenChunks source t) = preMergeCount (tokenChunks source' t) := by
    rw [preMergeCount_eq_length_flatten, preMergeCount_eq_length_flatten]
    exact hperm.length_eq
  have hpost : mergedPosting (tokenChunks source t) = mergedPosting (tokenChunks source' t) := by
    rw [mergedPosting_eq_flatten, mergedPosting_eq_flatten]
    exact perm_toFinset (hperm.map canonicalId)
  refine ⟨?_, ?_, fun h => ⟨rfl, rfl⟩⟩
  · by_cases h1 : tokenChunks source t = []
    · rw [mergeToken_dropped source t (Or.inl h1),
        mergeToken_dropped source' t (Or.inl (hempty.mp h1))]
    · have h1' : tokenChunks source' t ≠ [] := fun hc => h1 (hempty.mpr hc)
      by_cases h2 : 200 < preMergeCount (tokenChunks source t)
      · rw [mergeToken_dropped source t (Or.inr h2),
          mergeToken_dropped source' t (Or.inr (hcount ▸ h2))]
      · rw [mergeToken_survives source t h1 (not_lt.mp h2),
          mergeToken_survives source' t h1' (not_lt.mp (hcount ▸ h2)), hpost]
  · intro d hd
    have h1 : tokenChunks source t ≠ [] := by
      intro hc
      rw [mergeToken_dropped source t (Or.inl hc)] at hd
      cases hd
    have h2 : ¬ 200 < preMergeCount (tokenChunks source t) := by
      intro hc
      rw [mergeToken_dropped source t (Or.inr hc)] at hd
      cases hd
    rw [mergeToken_survives source t h1 (not_lt.mp h2)] at hd
    rw [← Option.some.inj hd, ← mergedPosting_eq_flatten]

/-- Witness for C5: the ids `a`, `b`, `c` (in three different wire shapes)
split `2+1` versus `1+2` across chunk records merge identically. -/
theorem c5_witness :
    mergeToken [⟨"T", [WireId.oid "a", WireId.dictOid "b"]⟩, ⟨"T", [WireId.strId "c"]⟩] "T"
      = mergeToken [⟨"T", [WireId.oid "a"]⟩, ⟨"T", [WireId.dictOid "b", WireId.strId "c"]⟩] "T" :=
  (c5_chunk_roundtrip
    [⟨"T", [WireId.oid "a", WireId.dictOid "b"]⟩, ⟨"T", [WireId.strId "c"]⟩]
    [⟨"T", [WireId.oid "a"]⟩, ⟨"T", [WireId.dictOid "b", WireId.strId "c"]⟩] "T"
    (by decide) (by decide)).1

/-- A list's last element (via `getLast?`) is a member. -/
theorem getLast?_mem_self {α : Type} : ∀ {l : List α} {e : α}, l.getLast? = some e → e ∈ l := by
  intro l
  induction l with
  | nil => intro e h; cases h
  | cons a t ih =>
    intro e h
    cases t with
    | nil =>
      rw [List.getLast?_singleton] at h
      rw [Option.some.inj h]
      exact List.mem_singleton_self e
    | cons b t' =>
      rw [List.getLast?_cons_cons] at h
      exact List.mem_cons_of_mem a (ih h)

/-- In a list strictly ascending by `id`, every element's id is at most the
last element's id. -/
theorem pairwise_id_le_getLast :
    ∀ (l : List RefEntity), l.Pairwise (fun a b => a.id < b.id) →
      ∀ (e : RefEntity), l.getLast? = some e → ∀ x ∈ l, x.id ≤ e.id := by
  intro l
  induction l with
  | nil => intro _ e h; cases h
  | cons a t ih =>
    intro hp e he x hx
    cases t with
    | nil =>
      rw [List.getLast?_singleton] at he
      rcases List.mem_singleton.mp hx with rfl
      rw [Option.some.inj he]
    | cons b t' =>
      rw [List.getLast?_cons_cons] at he
      rcases List.mem_cons.mp hx with rfl | hx'
      · have hmem : e ∈ b :: t' := getLast?_mem_self he
        exact le_of_lt ((List.pairwise_cons.mp hp).1 e hmem)
      · exact ih (List.pairwise_cons.mp hp).2 e he x hx'

/-- After committing a batch, filtering the snapshot strictly above the
batch's last id is exactly dropping the batch from the previous filter. -/
theorem filter_gt_batch_last (entities : List RefEntity)
    (hs : entities.Pairwise (fun a b => a.id < b.id)) (B : Nat) (last : Option Nat)
    (e : RefEntity)
    (he : ((entities.filter (fun x => gtLast last x.id)).take B).getLast? = some e) :
    entities.filter (fun x => gtLast (some e.id) x.id)
      = (entities.filter (fun x => gtLast last x.id)).drop B := by
  have hR : (entities.filter (fun x => gtLast last x.id)).Pairwise (fun a b => a.id < b.id) :=
    hs.sublist (List.filter_sublist entities)
  have hRsplit := List.take_append_drop B (entities.filter (fun x => gtLast last x.id))
  have hcross : ∀ x ∈ (entities.filter (fun x => gtLast last x.id)).take B,
      ∀ y ∈ (entities.filter (fun x => gtLast last x.id)).drop B, x.id < y.id := by
    have := hR
    rw [← hRsplit] at this
    exact (List.pairwise_append.mp this).2.2
  have hetake : e ∈ (entities.filter (fun x => gtLast last x.id)).take B :=
    getLast?_mem_self he
  have hbound : ∀ x ∈ (entities.filter (fun x => gtLast last x.id)).take B, x.id ≤ e.id :=
    pairwise_id_le_getLast _ (hR.sublist (List.take_sublist B _)) e he
  have hpe : gtLast last e.id = true :=
    (List.mem_filter.mp (List.take_subset B _ hetake)).2
  have hstep1 : entities.filter (fun x => gtLast (some e.id) x.id)
      = (entities.filter (fun x => gtLast last x.id)).filter
          (fun x => gtLast (some e.id) x.id) := by
    rw [List.filter_filter]
    apply List.filter_congr
    intro x _
    cases hc : gtLast (some e.id) x.id
    · simp
    · have hlx : gtLast last x.id = true := by
        cases last with
        | none => rfl
        | some c =>
          simp only [gtLast, decide_eq_true_eq] at hc hpe ⊢
          omega
      simp [hlx]
  rw [hstep1]
  conv_lhs => rw [← hRsplit]
  rw [List.filter_append]
  have h1 : ((entities.filter (fun x => gtLast last x.id)).take B).filter
      (fun x => gtLast (some e.id) x.id) = [] := by
    rw [List.filter_eq_nil_iff]
    intro x hx
    simp only [gtLast, decide_eq_true_eq]
    exact not_lt.mpr (hbound x hx)
  have h2 : ((entities.filter (fun x => gtLast last x.id)).drop B).filter
      (fun x => gtLast (some e.id) x.id)
      = (entities.filter (fun x => gtLast last x.id)).drop B := by
    rw [List.filter_eq_self]
    intro x hx
    simp only [gtLast, decide_eq_true_eq]
    exact hcross e hetake x hx
  rw [h1, h2, List.nil_append]

/-- One committed batch unfolded (nonempty batch). -/
theorem buildSteps_succ_some (B : Nat) (entities : List RefEntity) (n : Nat)
    (last : Option Nat) (e : RefEntity)
    (hb : (nextBatch B entities last).getLast? = some e) :
    buildSteps B entities (n + 1) last
      = (bulkInsertDocs (nextBatch B entities last)
            ++ (buildSteps B entities n (some e.id)).1,
         (buildSteps B entities n (some e.id)).2) := by
  simp only [buildSteps, hb]

/-- One loop round unfolded (empty batch: the loop stops). -/
theorem buildSteps_succ_none (B : Nat) (entities : List RefEntity) (n : Nat)
    (last : Option Nat) (hb : (nextBatch B entities last).getLast? = none) :
    buildSteps B entities (n + 1) last = ([], last) := by
  simp only [buildSteps, hb]

/-- On a sorted snapshot, any two sufficient fuels give the same run: each
committed batch consumes at least one remaining entity. -/
theorem buildSteps_fuel_stable (B : Nat) (entities : List RefEntity) (hB : 0 < B)
    (hs : entities.Pairwise (fun a b => a.id < b.id)) :
    ∀ (n₁ n₂ : Nat) (last : Option Nat),
      (entities.filter (fun x => gtLast last x.id)).length ≤ n₁ →
      (entities.filter (fun x => gtLast last x.id)).length ≤ n₂ →
      buildSteps B entities n₁ last = buildSteps B entities n₂ last := by
  intro n₁
  induction n₁ with
  | zero =>
    intro n₂ last h1 _
    have hR : entities.filter (fun x => gtLast last x.id) = [] :=
      List.length_eq_zero.mp (Nat.le_zero.mp h1)
    have hb : (nextBatch B entities last).getLast? = none := by
      simp [nextBatch, hR]
    cases n₂ with
    | zero => rfl
    | succ k =>
      rw [buildSteps_succ_none B entities k last hb]
      rfl
  | succ m ih =>
    intro n₂ last h1 h2
    cases n₂ with
    | zero =>
      have hR : entities.filter (fun x => gtLast last x.id) = [] :=
        List.length_eq_zero.mp (Nat.le_zero.mp h2)
      have hb : (nextBatch B entities last).getLast? = none := by
        simp [nextBatch, hR]
      rw [buildSteps_succ_none B entities m last hb]
      rfl
    | succ k =>
      cases hb : (nextBatch B entities last).getLast? with
      | none =>
        rw [buildSteps_succ_none B entities m last hb,
          buildSteps_succ_none B entities k last hb]
      | some e =>
        have hdrop : entities.filter (fun x => gtLast (some e.id) x.id)
            = (entities.filter (fun x => gtLast last x.id)).drop B :=
          filter_gt_batch_last entities hs B last e hb
        have hRne : entities.filter (fun x => gtLast last x.id) ≠ [] := by
          intro hc
          rw [show nextBatch B entities last
              = (entities.filter (fun x => gtLast last x.id)).take B from rfl, hc] at hb
          simp at hb
        have hlen : (entities.filter (fun x => gtLast (some e.id) x.id)).length
            = (entities.filter (fun x => gtLast last x.id)).length - B := by
          rw [hdrop, List.length_drop]
        have hpos : 0 < (entities.filter (fun x => gtLast last x.id)).length :=
          List.length_pos.mpr hRne
        have hrec := ih k (some e.id) (by omega) (by omega)
        rw [buildSteps_succ_some B entities m last e hb,
          buildSteps_succ_some B entities k last e hb, hrec]

/-- Resumability: the documents of the first `N` committed batches followed
by a full run from the saved checkpoint equal a full uninterrupted run. -/
theorem buildSteps_resume (B : Nat) (entities : List RefEntity) (hB : 0 < B)
    (hs : entities.Pairwise (fun a b => a.id < b.id)) :
    ∀ (N : Nat) (last : Option Nat),
      (buildSteps B entities N last).1
          ++ buildRun B entities (buildSteps B entities N last).2
        = buildRun B entities last := by
  intro N
  induction N with
  | zero => intro last; simp [buildSteps]
  | succ n ih =>
    intro last
    cases hb : (nextBatch B entities last).getLast? with
    | none =>
      rw [buildSteps_succ_none B entities n last hb]
      simp
    | some e =>
      have hstable : buildSteps B entities entities.length (some e.id)
          = buildSteps B entities (entities.length + 1) (some e.id) :=
        buildSteps_fuel_stable B entities hB hs entities.length (entities.length + 1)
          (some e.id) (List.length_filter_le _ entities)
          (le_trans (List.length_filter_le _ entities) (Nat.le_succ _))
      have hrun : buildRun B entities last
          = bulkInsertDocs (nextBatch B entities last)
            ++ (buildSteps B entities entities.length (some e.id)).1 := by
        show (buildSteps B entities (entities.length + 1) last).1 = _
        rw [buildSteps_succ_some B entities entities.length last e hb]
      rw [buildSteps_succ_some B entities n last e hb, hrun, List.append_assoc,
        ih (some e.id)]
      show bulkInsertDocs _ ++ (buildSteps B entities (entities.length + 1) (some e.id)).1
          = bulkInsertDocs _ ++ (buildSteps B entities entities.length (some e.id)).1
      rw [hstable]

/-- A run that starts from a real checkpoint always ends on a checkpoint. -/
theorem buildSteps_snd_some (B : Nat) (entities : List RefEntity) :
    ∀ (n : Nat) (c : Nat), ∃ c', (buildSteps B entities n (some c)).2 = some c' := by
  intro n
  induction n with
  | zero => intro c; exact ⟨c, rfl⟩
  | succ m ih =>
    intro c
    cases hb : (nextBatch B entities (some c)).getLast? with
    | none => exact ⟨c, by simp only [buildSteps, hb]⟩
    | some e =>
      obtain ⟨c', hc'⟩ := ih e.id
      exact ⟨c', by simp only [buildSteps, hb]; exact hc'⟩

/-- A fresh-start run that committed no checkpoint also inserted nothing. -/
theorem buildSteps_none_fst (B : Nat) (entities : List RefEntity) (N : Nat)
    (h : (buildSteps B entities N none).2 = none) :
    (buildSteps B entities N none).1 = [] := by
  cases N with
  | zero => rfl
  | succ m =>
    cases hb : (nextBatch B entities none).getLast? with
    | none => simp only [buildSteps, hb]
    | some e =>
      simp only [buildSteps, hb] at h
      obtain ⟨c', hc'⟩ := buildSteps_snd_some B entities m e.id
      rw [hc'] at h
      cases h

/-- Claim C6: over a snapshot in strictly ascending id order, interrupting
the build after `N` committed batches (index contents and checkpoint of
`buildSteps`) and restarting `builderMain` from the persisted checkpoint
yields the same final index as one uninterrupted fresh run — the merged
index, a function of this output, is then also identical.  The restart
resumes strictly after the checkpointed id (`gtLast`), and a run with no
checkpoint file discards any existing index contents and scans from the
beginning. -/
theorem c6_resumable_build (B : Nat) (entities : List RefEntity) (N : Nat)
    (hB : 0 < B) (hs : entities.Pairwise (fun a b => a.id < b.id)) :
    (builderMain B entities (buildSteps B entities N none).2
        (buildSteps B entities N none).1
      = builderMain B entities none [])
    ∧ (∀ existing, builderMain B entities none existing = buildRun B entities none) := by
  constructor
  · cases hcp : (buildSteps B entities N none).2 with
    | none =>
      have hfst : (buildSteps B entities N none).1 = [] :=
        buildSteps_none_fst B entities N hcp
      rw [hfst]
    | some c =>
      show (buildSteps B entities N none).1 ++ buildRun B entities (some c)
          = [] ++ buildRun B entities none
      rw [← hcp, buildSteps_resume B entities hB hs N none, List.nil_append]
  · intro existing
    rfl

/-- Witness for C6: a three-entity snapshot with batch size `2`, interrupted
after one committed batch. -/
theorem c6_witness :
    builderMain 2 [⟨1, some ["A"]⟩, ⟨2, some ["A", "B"]⟩, ⟨3, some ["B"]⟩]
        (buildSteps 2 [⟨1, some ["A"]⟩, ⟨2, some ["A", "B"]⟩, ⟨3, some ["B"]⟩] 1 none).2
        (buildSteps 2 [⟨1, some ["A"]⟩, ⟨2, some ["A", "B"]⟩, ⟨3, some ["B"]⟩] 1 none).1
      = builderMain 2 [⟨1, some ["A"]⟩, ⟨2, some ["A", "B"]⟩, ⟨3, some ["B"]⟩] none [] :=
  (c6_resumable_build 2 [⟨1, some ["A"]⟩, ⟨2, some ["A", "B"]⟩, ⟨3, some ["B"]⟩] 1
    (by decide) (by decide)).1
